import Mathlib

/-!
The honestbee TCP gateway: rate limiter and connection handler

A shallow embedding of `server/main.go` (package `main`) and of the data types of
`server/external/github.go`.

Modelling conventions.

* Go's `int` is the 64-bit two's complement integer: `GoInt` is an `Int` together with
  the proof that it lies in the `int` range, and `GoInt.incr` (Go's `++`) wraps.
  Integers that are only compared or printed (`SessionID`, `time.Duration`, the fields
  of a search result) are plain `Int`.
* `time.Time` is an instant counted in nanoseconds (`Time`), `time.Duration` is an
  `Int` of nanoseconds, and `Time.Sub` saturates at the ends of the `int64` range the
  way Go's `Time.Sub` does.
* `error` is `Option String`: `none` is `nil` and `some msg` is an error whose
  `Error()` text is `msg`.
* `map[SessionID]*freq` is a map to values, `SessionID → Option freq`: every key owns
  the cell it points to (`rateLimiter` only ever stores a freshly allocated cell, and
  `NewServer` starts from the empty map).
* State is passed explicitly: a function that mutates the map returns the new map.
* `handleConn` runs over the lines its scanner delivers. What the outside supplies while
  a line is handled (the clock reading, the outcome of `external.SearchIssues`) comes
  with the line, and what the handler does to the outside is returned as a list of
  events. One handler is followed on its own; the calls of several handlers on the
  shared map are the request lists of `checkAll`.
* The template library and the packages `strings` and `unicode` are not part of the
  repository: the report template is kept as its parsed nodes with the library's
  execution rules for these nodes, and the case table of `unicode` outside ASCII is a
  parameter.
-/

namespace HonestBee

/-! ## Machine integers, time -/

/-- Smallest value of Go's `int`. -/
def minInt : Int := -9223372036854775808

/-- Largest value of Go's `int`. -/
def maxInt : Int := 9223372036854775807

/-- A value of Go's `int`. -/
@[ext]
structure GoInt where
  val : Int
  lo : minInt ≤ val
  hi : val ≤ maxInt
deriving DecidableEq

/-- Conversion of a mathematical integer to Go's `int`, wrapping modulo `2^64`. -/
def GoInt.wrap (i : Int) : GoInt :=
  ⟨(i + 9223372036854775808) % 18446744073709551616 - 9223372036854775808,
    by unfold minInt; omega, by unfold maxInt; omega⟩

instance (n : Nat) : OfNat GoInt n := ⟨GoInt.wrap n⟩

/-- Go's `x++` on an `int`. -/
def GoInt.incr (x : GoInt) : GoInt := GoInt.wrap (x.val + 1)

/-- A `time.Duration`: a number of nanoseconds. -/
abbrev Duration := Int

/-- Smallest `time.Duration` (`minDuration` of package `time`). -/
def minDuration : Duration := -9223372036854775808

/-- Largest `time.Duration` (`maxDuration` of package `time`). -/
def maxDuration : Duration := 9223372036854775807

/-- The constant `time.Second`. -/
def Second : Duration := 1000000000

/-- A `time.Time`: an instant, in nanoseconds from a fixed origin. -/
structure Time where
  nsec : Int
deriving DecidableEq

/-- Go's `t.Sub(u)`: the duration `t - u`, or the largest (smallest) duration when the
difference does not fit. -/
def Time.Sub (t u : Time) : Duration :=
  if t.nsec - u.nsec > maxDuration then maxDuration
  else if t.nsec - u.nsec < minDuration then minDuration
  else t.nsec - u.nsec

/-- Go's `t.Add(d)`. -/
def Time.Add (t : Time) (d : Duration) : Time := ⟨t.nsec + d⟩

/-! ## Data model (`main.go`, lines 32-62) -/

/-- SessionID uniquely identifies a tcp-connection. -/
abbrev SessionID := Int

/-- The per-session window: `type freq struct { Count int; StartTime time.Time }`. -/
structure freq where
  Count : GoInt
  StartTime : Time
deriving DecidableEq

/-- An `error` value: `none` is `nil`. -/
abbrev error := Option String

/-- The map `map[SessionID]*freq`. -/
abbrev Sessions := SessionID → Option freq

/-- The map `make(map[SessionID]*freq)`. -/
def Sessions.empty : Sessions := fun _ => none

/-- The assignment `sessions[k] = &f` (also the effect of writing the fields of the cell
that `sessions[k]` points to). -/
def Sessions.set (sessions : Sessions) (k : SessionID) (f : freq) : Sessions :=
  fun j => if j = k then some f else sessions j

/-! ## The rate limiter (`main.go`, lines 128-149) -/

/-- The function `rateLimiter`: the map after the call and the returned `error`. -/
def rateLimiter (sessions : Sessions) (sessionID : SessionID) (throttle : GoInt)
    (period : Duration) (now : Time) : Sessions × error :=
  match sessions sessionID with
  | none => (sessions.set sessionID { Count := 1, StartTime := now }, none)
  | some r =>
    let d := now.Sub r.StartTime
    if d > period then
      (sessions.set sessionID { r with Count := 1, StartTime := now }, none)
    else if r.Count.val ≥ throttle.val then
      (sessions, some "403 Forbidden")
    else
      (sessions.set sessionID { r with Count := r.Count.incr }, none)

/-- A sequence of `rateLimiter` calls on one server (fixed `throttle` and `period`), each
request given by its session and its time: the final map and, per request, the session
with the `error` its call returned. -/
def checkAll (throttle : GoInt) (period : Duration) :
    Sessions → List (SessionID × Time) → Sessions × List (SessionID × error)
  | sessions, [] => (sessions, [])
  | sessions, (sid, now) :: rest =>
    let r := rateLimiter sessions sid throttle period now
    let rs := checkAll throttle period r.1 rest
    (rs.1, (sid, r.2) :: rs.2)

/-- The maps a server can hold: those reached from the empty map of `NewServer` by
`rateLimiter` calls. -/
inductive Reachable (throttle : GoInt) (period : Duration) : Sessions → Prop
  | init : Reachable throttle period Sessions.empty
  | call (sessions : Sessions) (sessionID : SessionID) (now : Time) :
      Reachable throttle period sessions →
      Reachable throttle period (rateLimiter sessions sessionID throttle period now).1

/-! ## Search results (`external/github.go`, lines 12-27) -/

/-- The struct `external.User`. -/
structure User where
  Login : String
deriving DecidableEq

/-- The struct `external.Issue`; the field `User *User` may be a nil pointer. -/
structure Issue where
  Number : Int
  HTMLURL : String
  Title : String
  User : Option User
  CreatedAt : Time
deriving DecidableEq

/-- The struct `external.IssuesSearchResult`; an element of `Items []*Issue` may be a nil
pointer. -/
structure IssuesSearchResult where
  TotalCount : Int
  Items : List (Option Issue)
deriving DecidableEq

/-! ## The report template (`main.go`, lines 156-164)

The template text is kept as the sequence of nodes that `template.Parse` reads from the
literal: the text between two actions is a text node, character for character (the
literal has no trim markers), `{{.Field}}` is a field action and `{{range .Items}}` up
to `{{end}}` is a range node. -/

/-- The fields of the current element that the body of `{{range .Items}}` prints. -/
inductive IssueField
  | Number
  | UserLogin
  | Title
  | HTMLURL
deriving DecidableEq

/-- A node of the body of `{{range .Items}}`. -/
inductive ItemNode
  | text (s : String)
  | field (f : IssueField)
deriving DecidableEq

/-- A node of the report template. -/
inductive ReportNode
  | text (s : String)
  | totalCount
  | rangeItems (body : List ItemNode)
deriving DecidableEq

/-- The template `report`, as parsed from the literal between the backquotes: the literal
starts with a line break, right after the opening backquote. -/
def report : List ReportNode :=
  [ .text "\n",
    .totalCount,
    .text " issues:\n",
    .rangeItems
      [ .text "---------------------------\nNumber: ",
        .field .Number,
        .text "\nUser: ",
        .field .UserLogin,
        .text "\nTitle: ",
        .field .Title,
        .text "\nURL: ",
        .field .HTMLURL,
        .text "\n" ],
    .text "\n" ]

/-- Evaluation of a field action on the current element of the range; a nil pointer on
the way is an execution error (the error text stands for the template library's). -/
def evalIssueField (dot : Option Issue) : IssueField → Except String String
  | .Number =>
    match dot with
    | none => .error "nil pointer evaluating *external.Issue.Number"
    | some i => .ok (toString i.Number)
  | .UserLogin =>
    match dot with
    | none => .error "nil pointer evaluating *external.Issue.User"
    | some i =>
      match i.User with
      | none => .error "nil pointer evaluating *external.User.Login"
      | some u => .ok u.Login
  | .Title =>
    match dot with
    | none => .error "nil pointer evaluating *external.Issue.Title"
    | some i => .ok i.Title
  | .HTMLURL =>
    match dot with
    | none => .error "nil pointer evaluating *external.Issue.HTMLURL"
    | some i => .ok i.HTMLURL

/-- Execution of the body of the range for one element. -/
def execItemNodes (dot : Option Issue) : List ItemNode → Except String String
  | [] => .ok ""
  | .text s :: rest => do
    let out ← execItemNodes dot rest
    pure (s ++ out)
  | .field f :: rest => do
    let v ← evalIssueField dot f
    let out ← execItemNodes dot rest
    pure (v ++ out)

/-- The node `{{range .Items}}body{{end}}`: the body once per element, in order; nothing for
an empty slice. -/
def execRange (body : List ItemNode) : List (Option Issue) → Except String String
  | [] => .ok ""
  | dot :: rest => do
    let one ← execItemNodes dot body
    let out ← execRange body rest
    pure (one ++ out)

/-- The call `tpl.Execute(&buf, result)` for a report template: the text left in the buffer,
or the execution error. -/
def Execute : List ReportNode → IssuesSearchResult → Except String String
  | [], _ => .ok ""
  | .text s :: rest, result => do
    let out ← Execute rest result
    pure (s ++ out)
  | .totalCount :: rest, result => do
    let out ← Execute rest result
    pure (toString result.TotalCount ++ out)
  | .rangeItems body :: rest, result => do
    let items ← execRange body result.Items
    let out ← Execute rest result
    pure (items ++ out)

/-! ## Strings (`strings.ToLower`, `strings.Split`) -/

/-- The rune mapping `unicode.ToLower`: on ASCII the letters `A` to `Z` move to `a` to `z`
and nothing else changes; outside ASCII the mapping is the table `unicodeLower` of Go's
package `unicode`, which is taken as a parameter. -/
def toLowerRune (unicodeLower : Char → Char) (c : Char) : Char :=
  if c.toNat < 128 then
    if 'A'.toNat ≤ c.toNat ∧ c.toNat ≤ 'Z'.toNat then Char.ofNat (c.toNat + 32) else c
  else unicodeLower c

/-- Go's `strings.ToLower`. -/
def ToLower (unicodeLower : Char → Char) (s : String) : String :=
  String.mk (s.data.map (toLowerRune unicodeLower))

/-- The pieces of a character sequence between the occurrences of `sep`; `cur` holds the
piece being read, last character first. -/
def splitChars (sep : Char) : List Char → List Char → List String
  | cur, [] => [String.mk cur.reverse]
  | cur, c :: cs =>
    if c = sep then String.mk cur.reverse :: splitChars sep [] cs
    else splitChars sep (c :: cur) cs

/-- Go's `strings.Split(s, sep)` for a separator of one character. -/
def Split (s : String) (sep : Char) : List String := splitChars sep [] s.data

/-! ## The connection handler (`main.go`, lines 40-62 and 86-154) -/

/-- Server implements the TCP server. -/
structure Server where
  throttle : GoInt
  period : Duration
  timeout : Duration
  sessions : Sessions
  curSessionID : SessionID

/-- NewServer returns an initiated TCP-server. -/
def NewServer (throttle : GoInt) (period : Duration) (timeout : Duration) : Server :=
  { throttle := throttle, period := period, timeout := timeout,
    sessions := Sessions.empty, curSessionID := 0 }

/-- What the handler does to the outside, in order: `write` is the bytes written to the
connection, `limit` a call of `rateLimiter` for a session at a time, `search` a call of
`external.SearchIssues` with its terms and timeout, `close` the deferred `c.Close()`.
The log lines printed to standard output are left out. -/
inductive Event
  | write (bytes : String)
  | limit (sessionID : SessionID) (now : Time)
  | search (terms : List String) (timeout : Duration)
  | close
deriving DecidableEq

/-- One line the scanner delivers, with what the outside supplies while it is handled:
the reading of `time.Now()` and the outcome of `external.SearchIssues`, each used only if
the handler gets that far. -/
structure Line where
  text : String
  now : Time
  search : Except String IssuesSearchResult

/-- How an iteration of the loop of `handleConn` ends: with the next `input.Scan()`
(`continue`, or the end of the loop body) or with `break`. -/
inductive Control
  | next
  | stop
deriving DecidableEq

/-- The function `reply`: `fmt.Fprintln(c, message)` writes the message and a line break. -/
def reply (message : String) : Event := .write (message ++ "\n")

/-- One iteration of the loop of `handleConn`: the map afterwards, what was done, and how
the iteration ends. -/
def handleLine (unicodeLower : Char → Char) (s : Server) (sessionID : SessionID)
    (ln : Line) : Sessions × List Event × Control :=
  let query := ln.text
  if ToLower unicodeLower query = "quit" then
    (s.sessions, [reply "bye!"], .stop)
  else
    let r := rateLimiter s.sessions sessionID s.throttle s.period ln.now
    match r.2 with
    | some err =>
      (r.1, [.limit sessionID ln.now, reply ("error: search query failed: " ++ err)], .next)
    | none =>
      match ln.search with
      | .error err =>
        (r.1, [.limit sessionID ln.now, .search (Split query ',') s.timeout,
          reply ("error: search query failed: 50x External API Error: " ++ err)], .stop)
      | .ok result =>
        match Execute report result with
        | .error err =>
          (r.1, [.limit sessionID ln.now, .search (Split query ',') s.timeout,
            reply ("error: search query failed: 500 Internal Server Error: " ++ err)], .stop)
        | .ok tpl =>
          (r.1, [.limit sessionID ln.now, .search (Split query ',') s.timeout, reply tpl],
            .next)

/-- The method `handleConn` on the lines the scanner delivers before the stream ends: the
map afterwards and what was done, the deferred `c.Close()` last. -/
def handleConn (unicodeLower : Char → Char) (s : Server) (sessionID : SessionID) :
    List Line → Sessions × List Event
  | [] => (s.sessions, [.close])
  | ln :: rest =>
    match handleLine unicodeLower s sessionID ln with
    | (sessions, done, .stop) => (sessions, done ++ [.close])
    | (sessions, done, .next) =>
      let r := handleConn unicodeLower { s with sessions := sessions } sessionID rest
      (r.1, done ++ r.2)

/-- The lines of a text: the pieces between its line breaks. -/
def lines (text : String) : List String := Split text '\n'

/-- Whether a line belongs to an item block of the report: the separator line, or a line
that starts with one of the four labels. -/
def isItemLine (l : String) : Bool :=
  l == "---------------------------" ||
  "Number:".data.isPrefixOf l.data || "User:".data.isPrefixOf l.data ||
  "Title:".data.isPrefixOf l.data || "URL:".data.isPrefixOf l.data

/-- The spellings of `quit` in upper and lower case letters. -/
def quitSpellings : List String :=
  [ "quit", "quiT", "quIt", "quIT", "qUit", "qUiT", "qUIt", "qUIT",
    "Quit", "QuiT", "QuIt", "QuIT", "QUit", "QUiT", "QUIt", "QUIT" ]

/-! ## Basic facts -/

theorem GoInt.wrap_val_of_range (i : Int) (h1 : minInt ≤ i) (h2 : i ≤ maxInt) :
    (GoInt.wrap i).val = i := by
  unfold minInt at h1
  unfold maxInt at h2
  simp only [GoInt.wrap]
  omega

@[simp] theorem GoInt.one_val : (1 : GoInt).val = 1 := by decide

/-- The increment of `rateLimiter` never overflows: it is guarded by `Count < throttle`. -/
theorem GoInt.incr_val_of_lt (x t : GoInt) (h : x.val < t.val) :
    x.incr.val = x.val + 1 := by
  have h1 := x.lo
  have h2 := t.hi
  unfold GoInt.incr
  apply GoInt.wrap_val_of_range <;> omega

@[simp] theorem Sessions.set_same (sessions : Sessions) (k : SessionID) (f : freq) :
    sessions.set k f k = some f := by
  simp [Sessions.set]

theorem Sessions.set_other (sessions : Sessions) (k j : SessionID) (f : freq) (h : j ≠ k) :
    sessions.set k f j = sessions j := by
  simp [Sessions.set, h]

/-- The call on a session without a window. -/
theorem rateLimiter_none (sessions : Sessions) (sessionID : SessionID) (throttle : GoInt)
    (period : Duration) (now : Time) (h : sessions sessionID = none) :
    rateLimiter sessions sessionID throttle period now =
      (sessions.set sessionID { Count := 1, StartTime := now }, none) := by
  simp [rateLimiter, h]

/-- The call on a session whose window has expired. -/
theorem rateLimiter_expired (sessions : Sessions) (sessionID : SessionID) (throttle : GoInt)
    (period : Duration) (now : Time) (r : freq) (h : sessions sessionID = some r)
    (hd : now.Sub r.StartTime > period) :
    rateLimiter sessions sessionID throttle period now =
      (sessions.set sessionID { Count := 1, StartTime := now }, none) := by
  simp [rateLimiter, h, hd]

/-- The call on a session whose window is open and full. -/
theorem rateLimiter_full (sessions : Sessions) (sessionID : SessionID) (throttle : GoInt)
    (period : Duration) (now : Time) (r : freq) (h : sessions sessionID = some r)
    (hd : now.Sub r.StartTime ≤ period) (hc : r.Count.val ≥ throttle.val) :
    rateLimiter sessions sessionID throttle period now = (sessions, some "403 Forbidden") := by
  have hd' : ¬ now.Sub r.StartTime > period := not_lt.mpr hd
  simp only [rateLimiter, h, hd', hc, if_true, if_false]

/-- The call on a session whose window is open and not full. -/
theorem rateLimiter_counted (sessions : Sessions) (sessionID : SessionID) (throttle : GoInt)
    (period : Duration) (now : Time) (r : freq) (h : sessions sessionID = some r)
    (hd : now.Sub r.StartTime ≤ period) (hc : r.Count.val < throttle.val) :
    rateLimiter sessions sessionID throttle period now =
      (sessions.set sessionID { Count := r.Count.incr, StartTime := r.StartTime }, none) := by
  have hd' : ¬ now.Sub r.StartTime > period := not_lt.mpr hd
  have hc' : ¬ r.Count.val ≥ throttle.val := not_le.mpr hc
  simp only [rateLimiter, h, hd', hc', if_false]

/-- Requests of one session, all inside the window that the session holds: request
number `j` (from 0) is admitted while `Count + j < throttle`, and rejected afterwards. -/
theorem checkAll_open_window (throttle : GoInt) (period : Duration) (sid : SessionID) :
    ∀ (ts : List Time) (sessions : Sessions) (r : freq), sessions sid = some r →
      (∀ t ∈ ts, t.Sub r.StartTime ≤ period) → ∀ j, j < ts.length →
      (checkAll throttle period sessions (ts.map (fun t => (sid, t)))).2[j]? =
        some (sid, if r.Count.val + (j : Int) < throttle.val then none
          else some "403 Forbidden") := by
  intro ts
  induction ts with
  | nil => intro _ _ _ _ j hj; simp at hj
  | cons now rest ih =>
    intro sessions r h hw j hj
    have hd : now.Sub r.StartTime ≤ period := hw now (List.mem_cons_self _ _)
    have hw' : ∀ t ∈ rest, t.Sub r.StartTime ≤ period :=
      fun t ht => hw t (List.mem_cons_of_mem _ ht)
    by_cases hc : r.Count.val < throttle.val
    · simp only [List.map_cons, checkAll, rateLimiter_counted _ _ _ _ _ r h hd hc]
      cases j with
      | zero => simp [hc]
      | succ j =>
        have hj' : j < rest.length := by simpa using hj
        have key := ih (sessions.set sid { Count := r.Count.incr, StartTime := r.StartTime })
          { Count := r.Count.incr, StartTime := r.StartTime } (Sessions.set_same _ _ _) hw' j hj'
        simp only [List.getElem?_cons_succ, key, GoInt.incr_val_of_lt _ _ hc]
        have e : (r.Count.val + 1 + (j : Int) < throttle.val) ↔
            (r.Count.val + ((j + 1 : Nat) : Int) < throttle.val) := by
          constructor <;> intro hh <;> push_cast at hh ⊢ <;> omega
        simp only [e]
    · have hc' : r.Count.val ≥ throttle.val := not_lt.mp hc
      simp only [List.map_cons, checkAll, rateLimiter_full _ _ _ _ _ r h hd hc']
      cases j with
      | zero => simp [hc]
      | succ j =>
        have hj' : j < rest.length := by simpa using hj
        have key := ih sessions r h hw' j hj'
        have e1 : ¬ (r.Count.val + (j : Int) < throttle.val) := by omega
        have e2 : ¬ (r.Count.val + ((j + 1 : Nat) : Int) < throttle.val) := by
          push_cast; omega
        simp only [List.getElem?_cons_succ, key, e1, e2, if_false]

/-- A call for session `A` leaves the entry of every other session as it was. -/
theorem rateLimiter_frame (sessions : Sessions) (A B : SessionID) (throttle : GoInt)
    (period : Duration) (now : Time) (h : B ≠ A) :
    (rateLimiter sessions A throttle period now).1 B = sessions B := by
  cases hA : sessions A with
  | none =>
    rw [rateLimiter_none _ _ _ _ _ hA]
    exact Sessions.set_other _ _ _ _ h
  | some r =>
    by_cases hd : now.Sub r.StartTime > period
    · rw [rateLimiter_expired _ _ _ _ _ r hA hd]
      exact Sessions.set_other _ _ _ _ h
    · have hd' : now.Sub r.StartTime ≤ period := not_lt.mp hd
      by_cases hc : r.Count.val ≥ throttle.val
      · rw [rateLimiter_full _ _ _ _ _ r hA hd' hc]
      · rw [rateLimiter_counted _ _ _ _ _ r hA hd' (not_le.mp hc)]
        exact Sessions.set_other _ _ _ _ h

/-- The result of a call for session `A` and the entry of `A` afterwards are determined by
the entry of `A` before the call. -/
theorem rateLimiter_local (s s' : Sessions) (A : SessionID) (throttle : GoInt)
    (period : Duration) (now : Time) (h : s A = s' A) :
    (rateLimiter s A throttle period now).2 = (rateLimiter s' A throttle period now).2 ∧
    (rateLimiter s A throttle period now).1 A = (rateLimiter s' A throttle period now).1 A := by
  cases hA : s' A with
  | none =>
    rw [rateLimiter_none _ _ _ _ _ (h.trans hA), rateLimiter_none _ _ _ _ _ hA]
    simp
  | some r =>
    have hs : s A = some r := h.trans hA
    by_cases hd : now.Sub r.StartTime > period
    · rw [rateLimiter_expired _ _ _ _ _ r hs hd, rateLimiter_expired _ _ _ _ _ r hA hd]
      simp
    · have hd' : now.Sub r.StartTime ≤ period := not_lt.mp hd
      by_cases hc : r.Count.val ≥ throttle.val
      · rw [rateLimiter_full _ _ _ _ _ r hs hd' hc, rateLimiter_full _ _ _ _ _ r hA hd' hc]
        exact ⟨rfl, h⟩
      · rw [rateLimiter_counted _ _ _ _ _ r hs hd' (not_le.mp hc),
          rateLimiter_counted _ _ _ _ _ r hA hd' (not_le.mp hc)]
        simp

/-- The decisions for session `A` in a run are those of the run of the requests of `A`
alone, from any map with the same entry for `A`; the entry of `A` ends the same. -/
theorem checkAll_filter (throttle : GoInt) (period : Duration) (A : SessionID) :
    ∀ (reqs : List (SessionID × Time)) (s s' : Sessions), s A = s' A →
      (checkAll throttle period s reqs).2.filter (fun d => decide (d.1 = A)) =
        (checkAll throttle period s' (reqs.filter (fun q => decide (q.1 = A)))).2 ∧
      (checkAll throttle period s reqs).1 A =
        (checkAll throttle period s' (reqs.filter (fun q => decide (q.1 = A)))).1 A := by
  intro reqs
  induction reqs with
  | nil => intro s s' h; simpa [checkAll] using h
  | cons q rest ih =>
    intro s s' h
    obtain ⟨sid, now⟩ := q
    by_cases hq : sid = A
    · subst hq
      have hl := rateLimiter_local s s' sid throttle period now h
      have key := ih (rateLimiter s sid throttle period now).1
        (rateLimiter s' sid throttle period now).1 hl.2
      simp only [checkAll, List.filter_cons, decide_True, if_true, key.1, hl.1, key.2,
        and_self]
    · have hf : (rateLimiter s sid throttle period now).1 A = s' A :=
        (rateLimiter_frame s sid A throttle period now (fun e => hq e.symm)).trans h
      have key := ih (rateLimiter s sid throttle period now).1 s' hf
      simp only [checkAll, List.filter_cons, hq, decide_False, Bool.false_eq_true, if_false,
        key.1, key.2, and_self]

/-- A call of `rateLimiter` keeps every `Count` between 1 and `max 1 throttle`. -/
theorem rateLimiter_count_bounds (sessions : Sessions) (A : SessionID) (throttle : GoInt)
    (period : Duration) (now : Time)
    (inv : ∀ sid f, sessions sid = some f → 1 ≤ f.Count.val ∧ f.Count.val ≤ max 1 throttle.val) :
    ∀ sid f, (rateLimiter sessions A throttle period now).1 sid = some f →
      1 ≤ f.Count.val ∧ f.Count.val ≤ max 1 throttle.val := by
  intro sid f hf
  by_cases hsid : sid = A
  · subst hsid
    cases h : sessions sid with
    | none =>
      rw [rateLimiter_none _ _ _ _ _ h] at hf
      simp only [Sessions.set_same, Option.some.injEq] at hf
      subst hf
      simp
    | some r =>
      by_cases hd : now.Sub r.StartTime > period
      · rw [rateLimiter_expired _ _ _ _ _ r h hd] at hf
        simp only [Sessions.set_same, Option.some.injEq] at hf
        subst hf
        simp
      · have hd' : now.Sub r.StartTime ≤ period := not_lt.mp hd
        by_cases hc : r.Count.val ≥ throttle.val
        · rw [rateLimiter_full _ _ _ _ _ r h hd' hc] at hf
          exact inv sid f hf
        · rw [rateLimiter_counted _ _ _ _ _ r h hd' (not_le.mp hc)] at hf
          simp only [Sessions.set_same, Option.some.injEq] at hf
          subst hf
          have h1 := (inv sid r h).1
          simp only [GoInt.incr_val_of_lt _ _ (not_le.mp hc)]
          refine ⟨by omega, le_max_of_le_right ?_⟩
          omega
  · rw [rateLimiter_frame _ _ _ _ _ _ hsid] at hf
    exact inv sid f hf

/-- A call that returns an error returns `403 Forbidden` and the map it was given. -/
theorem rateLimiter_error (sessions : Sessions) (sessionID : SessionID)
    (throttle : GoInt) (period : Duration) (now : Time)
    (h : (rateLimiter sessions sessionID throttle period now).2 ≠ none) :
    (rateLimiter sessions sessionID throttle period now).2 = some "403 Forbidden" ∧
    (rateLimiter sessions sessionID throttle period now).1 = sessions := by
  cases hA : sessions sessionID with
  | none =>
    rw [rateLimiter_none _ _ _ _ _ hA] at h
    exact absurd rfl h
  | some r =>
    by_cases hd : now.Sub r.StartTime > period
    · rw [rateLimiter_expired _ _ _ _ _ r hA hd] at h
      exact absurd rfl h
    · have hd' : now.Sub r.StartTime ≤ period := not_lt.mp hd
      by_cases hc : r.Count.val ≥ throttle.val
      · rw [rateLimiter_full _ _ _ _ _ r hA hd' hc]
        exact ⟨rfl, rfl⟩
      · rw [rateLimiter_counted _ _ _ _ _ r hA hd' (not_le.mp hc)] at h
        exact absurd rfl h

/-- The lower-case form of every spelling of `quit` is `quit`, whatever the mapping of the
runes outside ASCII. -/
theorem ToLower_quitSpellings (unicodeLower : Char → Char) (line : String)
    (h : line ∈ quitSpellings) : ToLower unicodeLower line = "quit" := by
  simp only [quitSpellings, List.mem_cons, List.mem_singleton, List.not_mem_nil,
    or_false] at h
  rcases h with h | h | h | h | h | h | h | h | h | h | h | h | h | h | h | h <;>
    subst h <;> rfl

/-! ## The claims about `rateLimiter` -/

/-- C2: `rateLimiter` returns an error exactly when the session has a window, `now` minus
its `StartTime` is not greater than `period` and its `Count` is at least `throttle`; the
error then reads `403 Forbidden` and the map is the one passed in; in every other case
the result is `nil`. -/
theorem rateLimiter_rejects_iff (sessions : Sessions) (sessionID : SessionID)
    (throttle : GoInt) (period : Duration) (now : Time) :
    ((rateLimiter sessions sessionID throttle period now).2 ≠ none ↔
      ∃ r, sessions sessionID = some r ∧ now.Sub r.StartTime ≤ period ∧
        r.Count.val ≥ throttle.val) ∧
    ((rateLimiter sessions sessionID throttle period now).2 ≠ none →
      (rateLimiter sessions sessionID throttle period now).2 = some "403 Forbidden" ∧
      (rateLimiter sessions sessionID throttle period now).1 = sessions) ∧
    ((¬ ∃ r, sessions sessionID = some r ∧ now.Sub r.StartTime ≤ period ∧
        r.Count.val ≥ throttle.val) →
      (rateLimiter sessions sessionID throttle period now).2 = none) := by
  cases h : sessions sessionID with
  | none =>
    rw [rateLimiter_none _ _ _ _ _ h]
    simp
  | some r =>
    by_cases hd : now.Sub r.StartTime > period
    · rw [rateLimiter_expired _ _ _ _ _ r h hd]
      have hd' : ¬ now.Sub r.StartTime ≤ period := not_le.mpr hd
      simp [hd']
    · have hd' : now.Sub r.StartTime ≤ period := not_lt.mp hd
      by_cases hc : r.Count.val ≥ throttle.val
      · rw [rateLimiter_full _ _ _ _ _ r h hd' hc]
        simp [hd', hc]
      · rw [rateLimiter_counted _ _ _ _ _ r h hd' (not_le.mp hc)]
        simp [hc]

/-- C2, at a concrete input: a full open window (`Count = 2`, `throttle = 2`, request at
the window's start) is rejected with `403 Forbidden` and the map stays as it was. -/
theorem rateLimiter_rejects_iff_witness :
    (rateLimiter (Sessions.empty.set 1 ⟨2, ⟨0⟩⟩) 1 2 Second ⟨0⟩).2 = some "403 Forbidden" ∧
    (rateLimiter (Sessions.empty.set 1 ⟨2, ⟨0⟩⟩) 1 2 Second ⟨0⟩).1 =
      Sessions.empty.set 1 ⟨2, ⟨0⟩⟩ :=
  (rateLimiter_rejects_iff (Sessions.empty.set 1 ⟨2, ⟨0⟩⟩) 1 2 Second ⟨0⟩).2.1
    ((rateLimiter_rejects_iff (Sessions.empty.set 1 ⟨2, ⟨0⟩⟩) 1 2 Second ⟨0⟩).1.mpr
      ⟨⟨2, ⟨0⟩⟩, by decide, by decide, by decide⟩)

/-- C3: for a session that has a window, a request with `now` minus `StartTime` strictly
greater than `period` is admitted whatever the prior `Count` was, and afterwards the
session's window has `Count = 1` and `StartTime = now`. -/
theorem rateLimiter_resets_after_period (sessions : Sessions) (sessionID : SessionID)
    (throttle : GoInt) (period : Duration) (now : Time) (r : freq)
    (h : sessions sessionID = some r) (hd : now.Sub r.StartTime > period) :
    (rateLimiter sessions sessionID throttle period now).2 = none ∧
    ∃ f, (rateLimiter sessions sessionID throttle period now).1 sessionID = some f ∧
      f.Count.val = 1 ∧ f.StartTime = now := by
  rw [rateLimiter_expired _ _ _ _ _ r h hd]
  exact ⟨rfl, _, Sessions.set_same _ _ _, GoInt.one_val, rfl⟩

/-- C3, at the input of the test: `throttle = 2`, `period` one second, a window with
`Count = 3` opened at `t0`, and a request ten seconds later. -/
theorem rateLimiter_resets_after_period_witness :
    (rateLimiter (Sessions.empty.set 1 ⟨3, ⟨0⟩⟩) 1 2 Second (Time.Add ⟨0⟩ (10 * Second))).2
      = none ∧
    ∃ f, (rateLimiter (Sessions.empty.set 1 ⟨3, ⟨0⟩⟩) 1 2 Second
        (Time.Add ⟨0⟩ (10 * Second))).1 1 = some f ∧
      f.Count.val = 1 ∧ f.StartTime = Time.Add ⟨0⟩ (10 * Second) :=
  rateLimiter_resets_after_period (Sessions.empty.set 1 ⟨3, ⟨0⟩⟩) 1 2 Second
    (Time.Add ⟨0⟩ (10 * Second)) ⟨3, ⟨0⟩⟩ (by decide) (by decide)

/-- C4: for a session that has a window, a request whose elapsed time `now` minus
`StartTime` is not greater than `period` (in particular: exactly equal to `period`) is
counted against that window: `StartTime` stays, the request is admitted with `Count`
increased by exactly one when `Count < throttle`, and it is rejected (the entry as it
was) when `Count >= throttle`. -/
theorem rateLimiter_within_period (sessions : Sessions) (sessionID : SessionID)
    (throttle : GoInt) (period : Duration) (now : Time) (r : freq)
    (h : sessions sessionID = some r) (hd : now.Sub r.StartTime ≤ period) :
    (r.Count.val < throttle.val →
      (rateLimiter sessions sessionID throttle period now).2 = none ∧
      ∃ f, (rateLimiter sessions sessionID throttle period now).1 sessionID = some f ∧
        f.Count.val = r.Count.val + 1 ∧ f.StartTime = r.StartTime) ∧
    (r.Count.val ≥ throttle.val →
      (rateLimiter sessions sessionID throttle period now).2 ≠ none ∧
      (rateLimiter sessions sessionID throttle period now).1 sessionID = some r) := by
  constructor
  · intro hc
    rw [rateLimiter_counted _ _ _ _ _ r h hd hc]
    exact ⟨rfl, _, Sessions.set_same _ _ _, GoInt.incr_val_of_lt _ _ hc, rfl⟩
  · intro hc
    rw [rateLimiter_full _ _ _ _ _ r h hd hc]
    exact ⟨by simp, h⟩

/-- C4, at elapsed time exactly `period`: `throttle = 2`, `period` one second, a window
with `Count = 1` opened at `t0`, and a request at `t0` plus one second. -/
theorem rateLimiter_within_period_witness :
    (Time.Add ⟨0⟩ Second).Sub ⟨0⟩ = Second ∧
    (rateLimiter (Sessions.empty.set 1 ⟨1, ⟨0⟩⟩) 1 2 Second (Time.Add ⟨0⟩ Second)).2
      = none ∧
    ∃ f, (rateLimiter (Sessions.empty.set 1 ⟨1, ⟨0⟩⟩) 1 2 Second
        (Time.Add ⟨0⟩ Second)).1 1 = some f ∧
      f.Count.val = (1 : GoInt).val + 1 ∧ f.StartTime = ⟨0⟩ :=
  ⟨by decide,
    (rateLimiter_within_period (Sessions.empty.set 1 ⟨1, ⟨0⟩⟩) 1 2 Second
      (Time.Add ⟨0⟩ Second) ⟨1, ⟨0⟩⟩ (by decide) (by decide)).1 (by decide)⟩

/-- C5: for every throttle (also zero or negative), period and time `now`: when the map
has no entry for `sessionID`, `rateLimiter` returns `nil` and afterwards the map holds
an entry for `sessionID` with `Count = 1` and `StartTime = now`. -/
theorem rateLimiter_first_request (sessions : Sessions) (sessionID : SessionID)
    (throttle : GoInt) (period : Duration) (now : Time)
    (h : sessions sessionID = none) :
    (rateLimiter sessions sessionID throttle period now).2 = none ∧
    ∃ f, (rateLimiter sessions sessionID throttle period now).1 sessionID = some f ∧
      f.Count.val = 1 ∧ f.StartTime = now := by
  rw [rateLimiter_none _ _ _ _ _ h]
  exact ⟨rfl, _, Sessions.set_same _ _ _, GoInt.one_val, rfl⟩

/-- C5, at a concrete input with a negative throttle: the empty map, session 7,
`throttle = -3`. -/
theorem rateLimiter_first_request_witness :
    (rateLimiter Sessions.empty 7 (GoInt.wrap (-3)) Second ⟨5⟩).2 = none ∧
    ∃ f, (rateLimiter Sessions.empty 7 (GoInt.wrap (-3)) Second ⟨5⟩).1 7 = some f ∧
      f.Count.val = 1 ∧ f.StartTime = ⟨5⟩ :=
  rateLimiter_first_request Sessions.empty 7 (GoInt.wrap (-3)) Second ⟨5⟩ (by decide)

/-- C1, amended: for every throttle other than 0, every period and every session that has
no window yet: when requests for that session are checked in order and every request
after the first has its time within the window opened by the first one (its time minus
the first request's time is not greater than `period`), the `n`-th request is admitted
for every `n ≤ throttle`, and the `(throttle+1)`-th request is rejected. -/
theorem within_window_admits_up_to_throttle (throttle : GoInt) (period : Duration)
    (sessions : Sessions) (sid : SessionID) (t0 : Time) (ts : List Time)
    (hthr : throttle.val ≠ 0) (h : sessions sid = none)
    (hw : ∀ t ∈ ts, t.Sub t0 ≤ period) (n : Nat) (hn1 : 1 ≤ n)
    (hn : n ≤ (t0 :: ts).length) :
    ((n : Int) ≤ throttle.val →
      (checkAll throttle period sessions ((t0 :: ts).map (fun t => (sid, t)))).2[n - 1]? =
        some (sid, none)) ∧
    ((n : Int) = throttle.val + 1 →
      ∃ e, (checkAll throttle period sessions
        ((t0 :: ts).map (fun t => (sid, t)))).2[n - 1]? = some (sid, some e)) := by
  simp only [List.map_cons, checkAll, rateLimiter_none _ _ _ _ _ h]
  obtain ⟨k, rfl⟩ : ∃ k, n = k + 1 := ⟨n - 1, by omega⟩
  cases k with
  | zero =>
    refine ⟨fun _ => by simp, fun hk => ?_⟩
    exfalso
    apply hthr
    push_cast at hk
    omega
  | succ j =>
    have hj : j < ts.length := by
      simp only [List.length_cons] at hn
      omega
    have key := checkAll_open_window throttle period sid ts
      (sessions.set sid { Count := 1, StartTime := t0 }) { Count := 1, StartTime := t0 }
      (Sessions.set_same _ _ _) hw j hj
    simp only [Nat.add_sub_cancel, List.getElem?_cons_succ, key, GoInt.one_val]
    constructor
    · intro hk
      have : (1 : Int) + (j : Int) < throttle.val := by push_cast at hk; omega
      simp [this]
    · intro hk
      have : ¬ ((1 : Int) + (j : Int) < throttle.val) := by push_cast at hk; omega
      simp [this]

/-- C1, at the input of the test's setting: `throttle = 2`, `period` one second, three
requests of session 1 at the same time: the second is admitted and the third rejected. -/
theorem within_window_admits_up_to_throttle_witness :
    (((2 : Nat) : Int) ≤ (2 : GoInt).val →
      (checkAll 2 Second Sessions.empty
        (([⟨0⟩, ⟨0⟩, ⟨0⟩] : List Time).map (fun t => ((1 : SessionID), t)))).2[2 - 1]? =
        some (1, none)) ∧
    (((3 : Nat) : Int) = (2 : GoInt).val + 1 →
      ∃ e, (checkAll 2 Second Sessions.empty
        (([⟨0⟩, ⟨0⟩, ⟨0⟩] : List Time).map (fun t => ((1 : SessionID), t)))).2[3 - 1]? =
        some (1, some e)) :=
  ⟨(within_window_admits_up_to_throttle 2 Second Sessions.empty 1 ⟨0⟩ [⟨0⟩, ⟨0⟩]
      (by decide) (by decide) (by decide) 2 (by decide) (by decide)).1,
    (within_window_admits_up_to_throttle 2 Second Sessions.empty 1 ⟨0⟩ [⟨0⟩, ⟨0⟩]
      (by decide) (by decide) (by decide) 3 (by decide) (by decide)).2⟩

/-- C1 fails at `throttle = 0`: the first request of a session without a window is the
`(throttle+1)`-th request, and it is admitted (its error is `nil`), not rejected. -/
theorem first_request_admitted_at_throttle_zero :
    Sessions.empty 1 = none ∧ ((1 : Nat) : Int) = (0 : GoInt).val + 1 ∧
    (checkAll 0 Second Sessions.empty
      (([⟨0⟩] : List Time).map (fun t => ((1 : SessionID), t)))).2[1 - 1]? =
        some (1, none) ∧
    ¬ ∃ e, (checkAll 0 Second Sessions.empty
      (([⟨0⟩] : List Time).map (fun t => ((1 : SessionID), t)))).2[1 - 1]? =
        some (1, some e) := by
  refine ⟨by decide, by decide, by decide, ?_⟩
  rintro ⟨e, he⟩
  have h0 : (checkAll 0 Second Sessions.empty
      (([⟨0⟩] : List Time).map (fun t => ((1 : SessionID), t)))).2[1 - 1]? =
        some (1, none) := by decide
  rw [h0] at he
  cases he

/-- C6: a call for session `A` leaves the entry of every other session `B` as it was; the
result of the call and the entry of `A` afterwards depend only on the entry of `A`
before, `throttle`, `period` and `now`; and in every interleaving of requests of several
sessions, the decisions for a session are those it gets when its requests are checked
alone (and its entry ends the same). -/
theorem sessions_independent :
    (∀ (sessions : Sessions) (A B : SessionID) (throttle : GoInt) (period : Duration)
        (now : Time), B ≠ A →
      (rateLimiter sessions A throttle period now).1 B = sessions B) ∧
    (∀ (s s' : Sessions) (A : SessionID) (throttle : GoInt) (period : Duration) (now : Time),
      s A = s' A →
      (rateLimiter s A throttle period now).2 = (rateLimiter s' A throttle period now).2 ∧
      (rateLimiter s A throttle period now).1 A =
        (rateLimiter s' A throttle period now).1 A) ∧
    (∀ (throttle : GoInt) (period : Duration) (sessions : Sessions)
        (reqs : List (SessionID × Time)) (A : SessionID),
      (checkAll throttle period sessions reqs).2.filter (fun d => decide (d.1 = A)) =
        (checkAll throttle period sessions (reqs.filter (fun q => decide (q.1 = A)))).2 ∧
      (checkAll throttle period sessions reqs).1 A =
        (checkAll throttle period sessions (reqs.filter (fun q => decide (q.1 = A)))).1 A) :=
  ⟨rateLimiter_frame, rateLimiter_local,
    fun throttle period sessions reqs A => checkAll_filter throttle period A reqs sessions
      sessions rfl⟩

/-- C6, at a concrete input: with `throttle = 1`, a call for session 1 leaves the entry of
session 2 as it was. -/
theorem sessions_independent_witness :
    (rateLimiter (Sessions.empty.set 2 ⟨1, ⟨0⟩⟩) 1 1 Second ⟨0⟩).1 2 =
      (Sessions.empty.set 2 ⟨1, ⟨0⟩⟩) 2 :=
  sessions_independent.1 (Sessions.empty.set 2 ⟨1, ⟨0⟩⟩) 1 2 1 Second ⟨0⟩ (by decide)

/-- C10: for every fixed throttle and period, in every map reached from the empty map by
`rateLimiter` calls, every entry has `1 ≤ Count ≤ max 1 throttle`; so `Count` never
exceeds `throttle` when `throttle ≥ 1`, and when `throttle ≤ 0` every window has
`Count = 1`: the request that opened the window was granted, and every other request
inside the window is rejected. -/
theorem reachable_count_bounds (throttle : GoInt) (period : Duration) (sessions : Sessions)
    (hr : Reachable throttle period sessions) (sid : SessionID) (f : freq)
    (hf : sessions sid = some f) :
    (1 ≤ f.Count.val ∧ f.Count.val ≤ max 1 throttle.val) ∧
    (1 ≤ throttle.val → f.Count.val ≤ throttle.val) ∧
    (throttle.val ≤ 0 → f.Count.val = 1 ∧
      ∀ now : Time, now.Sub f.StartTime ≤ period →
        (rateLimiter sessions sid throttle period now).2 ≠ none) := by
  have main : ∀ sid f, sessions sid = some f →
      1 ≤ f.Count.val ∧ f.Count.val ≤ max 1 throttle.val := by
    clear hf
    induction hr with
    | init => intro sid f hf; simp [Sessions.empty] at hf
    | call s A now _ ih => exact rateLimiter_count_bounds s A throttle period now ih
  have hb := main sid f hf
  refine ⟨hb, fun ht => ?_, fun ht => ?_⟩
  · rw [max_eq_right ht] at hb
    exact hb.2
  · rw [max_eq_left (by omega)] at hb
    refine ⟨by omega, fun now hd => ?_⟩
    rw [rateLimiter_full _ _ _ _ _ f hf hd (by omega)]
    simp

/-- C10, at a concrete input: `throttle = 2`, two calls for session 1 from the empty map. -/
theorem reachable_count_bounds_witness :
    (1 ≤ (2 : GoInt).val ∧ (2 : GoInt).val ≤ max 1 (2 : GoInt).val) ∧
    (1 ≤ (2 : GoInt).val → (2 : GoInt).val ≤ (2 : GoInt).val) ∧
    ((2 : GoInt).val ≤ 0 → (2 : GoInt).val = 1 ∧
      ∀ now : Time, now.Sub (⟨0⟩ : Time) ≤ Second →
        (rateLimiter (rateLimiter (rateLimiter Sessions.empty 1 2 Second ⟨0⟩).1 1 2 Second
          ⟨0⟩).1 1 2 Second now).2 ≠ none) :=
  reachable_count_bounds 2 Second
    (rateLimiter (rateLimiter Sessions.empty 1 2 Second ⟨0⟩).1 1 2 Second ⟨0⟩).1
    (Reachable.call _ _ _ (Reachable.call _ _ _ Reachable.init)) 1 ⟨2, ⟨0⟩⟩ (by decide)

/-! ## The claims about `handleConn` and the report -/

/-- C7: one iteration of the loop of `handleConn` on a line that is not `quit`. After a
rate-limit rejection the error reply is written, `SearchIssues` is not called and the
loop goes on with the next line; after a search failure or a render failure the error
reply is written and the loop ends (the rest is not read, the connection is closed);
after a successful search and render the rendered text is written and the loop goes on
with the next line. -/
theorem handleConn_step (unicodeLower : Char → Char) (s : Server) (sessionID : SessionID)
    (ln : Line) (rest : List Line) (hq : ToLower unicodeLower ln.text ≠ "quit") :
    ((rateLimiter s.sessions sessionID s.throttle s.period ln.now).2 ≠ none →
      handleConn unicodeLower s sessionID (ln :: rest) =
        ((handleConn unicodeLower s sessionID rest).1,
          [.limit sessionID ln.now, .write "error: search query failed: 403 Forbidden\n"] ++
            (handleConn unicodeLower s sessionID rest).2)) ∧
    ((rateLimiter s.sessions sessionID s.throttle s.period ln.now).2 = none →
      (∀ err, ln.search = .error err →
        handleConn unicodeLower s sessionID (ln :: rest) =
          ((rateLimiter s.sessions sessionID s.throttle s.period ln.now).1,
            [.limit sessionID ln.now, .search (Split ln.text ',') s.timeout,
              .write ("error: search query failed: 50x External API Error: " ++ err ++ "\n"),
              .close])) ∧
      (∀ result err, ln.search = .ok result → Execute report result = .error err →
        handleConn unicodeLower s sessionID (ln :: rest) =
          ((rateLimiter s.sessions sessionID s.throttle s.period ln.now).1,
            [.limit sessionID ln.now, .search (Split ln.text ',') s.timeout,
              .write ("error: search query failed: 500 Internal Server Error: " ++ err ++ "\n"),
              .close])) ∧
      (∀ result tpl, ln.search = .ok result → Execute report result = .ok tpl →
        handleConn unicodeLower s sessionID (ln :: rest) =
          ((handleConn unicodeLower
              { s with sessions :=
                (rateLimiter s.sessions sessionID s.throttle s.period ln.now).1 }
              sessionID rest).1,
            [.limit sessionID ln.now, .search (Split ln.text ',') s.timeout,
              .write (tpl ++ "\n")] ++
            (handleConn unicodeLower
              { s with sessions :=
                (rateLimiter s.sessions sessionID s.throttle s.period ln.now).1 }
              sessionID rest).2))) := by
  refine ⟨fun hrej => ?_, fun hadm => ⟨fun err he => ?_, fun result err he hx => ?_,
    fun result tpl he hx => ?_⟩⟩
  · obtain ⟨h, hs⟩ := rateLimiter_error s.sessions sessionID s.throttle s.period ln.now hrej
    simp only [handleConn, handleLine, hq, if_false, h, hs, reply]
    rfl
  · simp only [handleConn, handleLine, hq, if_false, hadm, he, reply]
    rfl
  · simp only [handleConn, handleLine, hq, if_false, hadm, he, hx, reply]
    rfl
  · simp only [handleConn, handleLine, hq, if_false, hadm, he, hx, reply]

/-- C7, at concrete inputs, one per outcome: a server with `throttle = 1`; session 1
has used up its window (rejection) and session 2 has no window yet (admission, then a
search failure, a render failure on a nil item, or a rendered report). -/
theorem handleConn_step_witness :
    handleConn id { NewServer 1 Second 15 with sessions := Sessions.empty.set 1 ⟨1, ⟨0⟩⟩ } 1
        [⟨"is:open", ⟨0⟩, .ok ⟨0, []⟩⟩] =
      ((handleConn id { NewServer 1 Second 15 with sessions := Sessions.empty.set 1 ⟨1, ⟨0⟩⟩ }
          1 []).1,
        [.limit 1 ⟨0⟩, .write "error: search query failed: 403 Forbidden\n"] ++
          (handleConn id
            { NewServer 1 Second 15 with sessions := Sessions.empty.set 1 ⟨1, ⟨0⟩⟩ } 1 []).2) ∧
    handleConn id { NewServer 1 Second 15 with sessions := Sessions.empty.set 1 ⟨1, ⟨0⟩⟩ } 2
        [⟨"is:open,author:roylee0704", ⟨0⟩, .error "timeout"⟩, ⟨"is:open", ⟨0⟩, .ok ⟨0, []⟩⟩] =
      ((rateLimiter (Sessions.empty.set 1 ⟨1, ⟨0⟩⟩) 2 1 Second ⟨0⟩).1,
        [.limit 2 ⟨0⟩, .search ["is:open", "author:roylee0704"] 15,
          .write "error: search query failed: 50x External API Error: timeout\n", .close]) ∧
    (∃ err,
      handleConn id { NewServer 1 Second 15 with sessions := Sessions.empty.set 1 ⟨1, ⟨0⟩⟩ } 2
          [⟨"is:open", ⟨0⟩, .ok ⟨1, [none]⟩⟩, ⟨"is:open", ⟨0⟩, .ok ⟨0, []⟩⟩] =
        ((rateLimiter (Sessions.empty.set 1 ⟨1, ⟨0⟩⟩) 2 1 Second ⟨0⟩).1,
          [.limit 2 ⟨0⟩, .search ["is:open"] 15,
            .write ("error: search query failed: 500 Internal Server Error: " ++ err ++ "\n"),
            .close])) ∧
    handleConn id { NewServer 1 Second 15 with sessions := Sessions.empty.set 1 ⟨1, ⟨0⟩⟩ } 2
        [⟨"is:open", ⟨0⟩, .ok ⟨0, []⟩⟩, ⟨"quit", ⟨0⟩, .ok ⟨0, []⟩⟩] =
      ((handleConn id
          { NewServer 1 Second 15 with
            sessions := (rateLimiter (Sessions.empty.set 1 ⟨1, ⟨0⟩⟩) 2 1 Second ⟨0⟩).1 }
          2 [⟨"quit", ⟨0⟩, .ok ⟨0, []⟩⟩]).1,
        [.limit 2 ⟨0⟩, .search ["is:open"] 15, .write "\n0 issues:\n\n\n"] ++
          (handleConn id
            { NewServer 1 Second 15 with
              sessions := (rateLimiter (Sessions.empty.set 1 ⟨1, ⟨0⟩⟩) 2 1 Second ⟨0⟩).1 }
            2 [⟨"quit", ⟨0⟩, .ok ⟨0, []⟩⟩]).2) :=
  ⟨(handleConn_step id
      { NewServer 1 Second 15 with sessions := Sessions.empty.set 1 ⟨1, ⟨0⟩⟩ } 1
      ⟨"is:open", ⟨0⟩, .ok ⟨0, []⟩⟩ [] (by decide)).1 (by decide),
    ((handleConn_step id
      { NewServer 1 Second 15 with sessions := Sessions.empty.set 1 ⟨1, ⟨0⟩⟩ } 2
      ⟨"is:open,author:roylee0704", ⟨0⟩, .error "timeout"⟩ [⟨"is:open", ⟨0⟩, .ok ⟨0, []⟩⟩]
      (by decide)).2 (by decide)).1 "timeout" rfl,
    ⟨"nil pointer evaluating *external.Issue.Number",
      ((handleConn_step id
        { NewServer 1 Second 15 with sessions := Sessions.empty.set 1 ⟨1, ⟨0⟩⟩ } 2
        ⟨"is:open", ⟨0⟩, .ok ⟨1, [none]⟩⟩ [⟨"is:open", ⟨0⟩, .ok ⟨0, []⟩⟩]
        (by decide)).2 (by decide)).2.1 ⟨1, [none]⟩ _ rfl rfl⟩,
    ((handleConn_step id
      { NewServer 1 Second 15 with sessions := Sessions.empty.set 1 ⟨1, ⟨0⟩⟩ } 2
      ⟨"is:open", ⟨0⟩, .ok ⟨0, []⟩⟩ [⟨"quit", ⟨0⟩, .ok ⟨0, []⟩⟩]
      (by decide)).2 (by decide)).2.2 ⟨0, []⟩ "\n0 issues:\n\n" rfl rfl⟩

/-- C8: for every spelling of `quit` in upper and lower case letters, whatever the server's
map is and whatever lines follow: `handleConn` writes exactly `bye!` (and the line break
of `Fprintln`) and closes the connection; `rateLimiter` and `SearchIssues` are not
called, the map is left as it was, and no further line is read. This holds for the first
line of the session as for every later one. -/
theorem handleConn_quit (unicodeLower : Char → Char) (s : Server) (sessionID : SessionID)
    (ln : Line) (rest : List Line) (h : ln.text ∈ quitSpellings) :
    handleConn unicodeLower s sessionID (ln :: rest) =
      (s.sessions, [.write "bye!\n", .close]) := by
  simp only [handleConn, handleLine, ToLower_quitSpellings unicodeLower ln.text h, if_true,
    reply]
  rfl

/-- C8, at a concrete input: `QuIt` as the very first line of a session on a fresh
server, with another line behind it. -/
theorem handleConn_quit_witness :
    handleConn id (NewServer 30 Second 15) 1
        [⟨"QuIt", ⟨0⟩, .error "unused"⟩, ⟨"is:open", ⟨0⟩, .ok ⟨0, []⟩⟩] =
      ((NewServer 30 Second 15).sessions, [.write "bye!\n", .close]) :=
  handleConn_quit id (NewServer 30 Second 15) 1 ⟨"QuIt", ⟨0⟩, .error "unused"⟩
    [⟨"is:open", ⟨0⟩, .ok ⟨0, []⟩⟩] (by decide)

/-- C9 fails as stated: the response for `TotalCount = 0` and no items starts with a line
break, so its first line is empty and does not read `0 issues:`. -/
theorem report_first_line_is_empty :
    Execute report ⟨0, []⟩ = .ok "\n0 issues:\n\n" ∧
    reply "\n0 issues:\n\n" = .write "\n0 issues:\n\n\n" ∧
    (lines "\n0 issues:\n\n\n").head? = some "" ∧
    (lines "\n0 issues:\n\n\n").head? ≠ some "0 issues:" := by
  refine ⟨rfl, rfl, by decide, by decide⟩

/-- C9, amended: rendering a search result with `TotalCount = 0` and no items through the
report template and `reply` writes a response whose first line is empty, whose second
line reads `0 issues:`, whose remaining lines are empty, and that contains no item block
(no separator line and no line starting with `Number:`, `User:`, `Title:` or `URL:`);
a request that is admitted and whose search returns this result gets this response and
the loop goes on. -/
theorem report_no_issues :
    Execute report ⟨0, []⟩ = .ok "\n0 issues:\n\n" ∧
    reply "\n0 issues:\n\n" = .write "\n0 issues:\n\n\n" ∧
    lines "\n0 issues:\n\n\n" = ["", "0 issues:", "", "", ""] ∧
    (lines "\n0 issues:\n\n\n").all (fun l => !isItemLine l) = true ∧
    (handleLine id (NewServer 30 Second 15) 1 ⟨"is:open", ⟨0⟩, .ok ⟨0, []⟩⟩).2 =
      ([.limit 1 ⟨0⟩, .search ["is:open"] 15, .write "\n0 issues:\n\n\n"], .next) := by
  refine ⟨rfl, rfl, by decide, by decide, by decide⟩

end HonestBee
